import Mathlib

/-!
Verification development for the query-building and execution core in
`piccolo/query/base.py`: the `Query` base class (dialect resolution,
execution, result post-processing, freezing) and the `FrozenQuery` wrapper.

The Python code is shallowly embedded: exceptions become `Except Err`,
Python dicts become association lists with Python-dict insertion semantics,
and the class-level extension points of `Query` subclasses (the three
dialect-specific querystring producers, `response_handler`, the optional
`output_delegate`, the `_validate` hook) become fields of the `Query`
structure.  A producer field holding `none` models the base property that
raises `NotImplementedError`.
-/

namespace Piccolo

/-- A parameterized SQL fragment.  Its internals are irrelevant to the
claims under study; only identity matters, so it is wrapped opaquely. -/
structure QueryString where
  sql : String
deriving DecidableEq, Repr

/-- A database value as returned by the engine driver. -/
inductive Value where
  | null : Value
  | bool (b : Bool) : Value
  | int (n : Int) : Value
  | str (s : String) : Value
deriving DecidableEq, Repr

/-- A row record: an ordered mapping from column name to value
(a Python `dict`). -/
abbrev Row : Type := List (String × Value)

/-- `dict.keys()`. -/
def Row.keys (r : Row) : List String := r.map Prod.fst

/-- `dict.values()`. -/
def Row.values (r : Row) : List Value := r.map Prod.snd

/-- Inserting one key/value pair into a Python dict: an existing key keeps
its position and takes the new value; a fresh key is appended. -/
def dictInsert (r : Row) (k : String) (v : Value) : Row :=
  match r with
  | [] => [(k, v)]
  | (k', v') :: rest =>
      if k' = k then (k', v) :: rest else (k', v') :: dictInsert rest k v

/-- `dict(pairs)`: build a dict from a pair sequence, left to right. -/
def dictOf (ps : List (String × Value)) : Row :=
  ps.foldl (fun r kv => dictInsert r kv.1 kv.2) []

/-- A constructed table-model instance, i.e. the result of
`self.table(**columns)` (construction itself is owned by the external
Table collaborator, spec section 6). -/
structure Obj where
  tablename : String
  columns : Row
deriving DecidableEq, Repr

/-- The engine boundary (external collaborator): an `engine_type` tag and
`run_querystring`, modelled as a pure function of the querystring and the
`in_pool` flag for a fixed data state. -/
structure Engine where
  engine_type : String
  run_querystring : QueryString → Bool → List Row

/-- The Table/schema collaborator: display name and optional bound engine
(`table._meta.tablename`, `table._meta.db`). -/
structure Table where
  tablename : String
  db : Option Engine

/-- `self.table(**columns)`: construct a model instance from a
column-name-to-value mapping. -/
def Table.instantiate (t : Table) (r : Row) : Obj :=
  { tablename := t.tablename, columns := r }

/-- The output delegate's three formatting flags. -/
structure Output where
  as_objects : Bool
  as_list : Bool
  as_json : Bool
deriving DecidableEq, Repr

/-- The values `response_handler` may return that the shaping code
distinguishes: a list of rows, a singular row, or `None`. -/
inductive Resp where
  | list (rs : List Row) : Resp
  | dict (r : Row) : Resp
  | noneV : Resp
deriving DecidableEq, Repr

/-- A Python exception: `ValueError(msg)`, bare `Exception(msg)`,
`NotImplementedError`, or `AttributeError(msg)`. -/
inductive Err where
  | valueError (msg : String) : Err
  | exception (msg : String) : Err
  | notImplementedError : Err
  | attributeError (msg : String) : Err
deriving DecidableEq, Repr

/-- Does this exception have attribute-not-found style? -/
def Err.isAttributeError : Err → Bool
  | .attributeError _ => true
  | _ => false

/-- The shapes a processed result can take after `_process_results`. -/
inductive Shaped where
  | list (rs : List Row) : Shaped
  | dict (r : Row) : Shaped
  | noneV : Shaped
  | objects (os : List Obj) : Shaped
  | obj (o : Obj) : Shaped
  | flat (vs : List Value) : Shaped
  | json (s : String) : Shaped
deriving DecidableEq, Repr

/-- A handler result viewed as an (un-shaped) result value. -/
def shapedOfResp : Resp → Shaped
  | .list rs => .list rs
  | .dict r => .dict r
  | .noneV => .noneV

def Value.toJsonString : Value → String
  | .null => "null"
  | .bool b => cond b "true" "false"
  | .int n => toString n
  | .str s => "\"" ++ s ++ "\""

def Row.toJsonString (r : Row) : String :=
  "\x7b" ++
    String.intercalate ", "
      (r.map (fun kv => "\"" ++ kv.1 ++ "\": " ++ kv.2.toJsonString)) ++
  "\x7d"

def Obj.toJsonString (o : Obj) : String := o.columns.toJsonString

/-- Modelled from the spec: `dump_json` (from `piccolo.utils.encoding`,
whose source is not under src/) serializes the possibly-already-transformed
result to a JSON text representation (spec sections 4.4 and 2). -/
def dump_json : Shaped → String
  | .list rs => "[" ++ String.intercalate ", " (rs.map Row.toJsonString) ++ "]"
  | .dict r => r.toJsonString
  | .noneV => "null"
  | .objects os => "[" ++ String.intercalate ", " (os.map Obj.toJsonString) ++ "]"
  | .obj o => o.toJsonString
  | .flat vs => "[" ++ String.intercalate ", " (vs.map Value.toJsonString) ++ "]"
  | .json s => s

/-- A query: the bound table, the optional pre-resolved querystrings, and
the class-level extension points of the concrete operation.  The producer
fields hold `none` when the corresponding property is not overridden, i.e.
raises `NotImplementedError` as in the base class. -/
structure Query where
  table : Table
  frozen_querystrings : Option (List QueryString)
  postgres_querystrings : Option (List QueryString)
  sqlite_querystrings : Option (List QueryString)
  default_querystrings : Option (List QueryString)
  response_handler : List Row → Resp
  output_delegate : Option Output
  validate : Option Err

/-- `Query.engine_type`: the engine tag of the bound table's database, a
`ValueError` when no engine is bound. -/
def Query.engine_type (q : Query) : Except Err String :=
  match q.table.db with
  | some engine => .ok engine.engine_type
  | none => .error (.valueError "Engine isn't defined.")

/-- Attempt a dialect-specific producer, falling back to the default
producer when it signals not-implemented; the fallback's own
not-implemented signal propagates. -/
def attemptWithFallback (specific default : Option (List QueryString)) :
    Except Err (List QueryString) :=
  match specific with
  | some qs => .ok qs
  | none =>
      match default with
      | some qs => .ok qs
      | none => .error .notImplementedError

/-- `Query.querystrings`: the effective querystrings.  A frozen sequence is
returned verbatim; otherwise dispatch on the engine tag, catching the
`NotImplementedError` of the dialect-specific producer to fall back to the
default producer; an unrecognised tag raises naming the tag. -/
def Query.querystrings (q : Query) : Except Err (List QueryString) :=
  match q.frozen_querystrings with
  | some qs => .ok qs
  | none =>
      match q.engine_type with
      | .error e => .error e
      | .ok engine_type =>
          if engine_type = "postgres" then
            attemptWithFallback q.postgres_querystrings q.default_querystrings
          else if engine_type = "sqlite" then
            attemptWithFallback q.sqlite_querystrings q.default_querystrings
          else
            .error (.exception
              ("No querystring found for the " ++ engine_type ++ " engine."))

/-- `i.replace("$", ".")`: since the pattern is the single character `$`,
substring replacement coincides with a character-wise map. -/
def replaceDollar (s : String) : String :=
  ⟨s.data.map (fun c => if c = '$' then '.' else c)⟩

/-- Step 1-2 of `_process_results`: take the column keys from the first
row, rewrite the `$` path-separator marker to `.`, and rebuild each row as
`dict(zip(keys, row.values()))`.  An empty result collection yields `[]`.
(The effect-only `run_callback` hook, which returns nothing, is elided.) -/
def rebuildRows (results : List Row) : List Row :=
  match results with
  | [] => []
  | r0 :: _ =>
      let keys := r0.keys.map replaceDollar
      results.map (fun r => dictOf (keys.zip r.values))

/-- `Query._process_results`: rebuild the rows, run `response_handler`,
then apply the output delegate's flags exactly as the source does —
`as_objects` first; otherwise, when the handler result is a list,
`as_list` flattening (with the early return of `[]` on empty input and the
single-column check against the first row) and then `as_json`. -/
def Query.process_results (q : Query) (results : List Row) :
    Except Err Shaped :=
  let raw := q.response_handler (rebuildRows results)
  match q.output_delegate with
  | none => .ok (shapedOfResp raw)
  | some output =>
      if output.as_objects then
        match raw with
        | .list rs => .ok (.objects (rs.map q.table.instantiate))
        | .noneV => .ok .noneV
        | .dict r => .ok (.obj (q.table.instantiate r))
      else
        match raw with
        | .list rs =>
            if output.as_list then
              match rs with
              | [] => .ok (.list [])
              | r :: _ =>
                  if r.keys.length ≠ 1 then
                    .error (.valueError "Each row returned more than one value")
                  else
                    let flat := (rs.map Row.values).flatten
                    if output.as_json then .ok (.json (dump_json (.flat flat)))
                    else .ok (.flat flat)
            else
              if output.as_json then .ok (.json (dump_json (.list rs)))
              else .ok (.list rs)
        | other => .ok (shapedOfResp other)

/-- The result of `Query.run`: a single post-processed output for one
querystring, or the ordered per-statement outputs for several. -/
inductive RunResult where
  | single (s : Shaped) : RunResult
  | multi (rs : List Shaped) : RunResult
deriving DecidableEq, Repr

/-- The sequential loop of the multi-querystring branch of `Query.run`: each
querystring is executed to completion and post-processed before the next
begins; an exception aborts the rest. -/
def Query.runEach (q : Query) (engine : Engine) (in_pool : Bool) :
    List QueryString → Except Err (List Shaped)
  | [] => .ok []
  | k :: rest => do
      let results := engine.run_querystring k in_pool
      let r ← q.process_results results
      let rs ← q.runEach engine in_pool rest
      .ok (r :: rs)

/-- `Query.run`: validation hook, engine-presence check (naming the table),
querystring resolution, then the one-querystring fast path or the
sequential multi-querystring loop (no transaction wrapping). -/
def Query.run (q : Query) (in_pool : Bool) : Except Err RunResult :=
  match q.validate with
  | some e => .error e
  | none =>
      match q.table.db with
      | none =>
          .error (.valueError
            ("Table " ++ q.table.tablename ++ " has no db defined in _meta"))
      | some engine =>
          match q.querystrings with
          | .error e => .error e
          | .ok qss =>
              match qss with
              | [k] =>
                  (q.process_results (engine.run_querystring k in_pool)).map
                    RunResult.single
              | _ => (q.runEach engine in_pool qss).map RunResult.multi

/-- The default value of `run`'s `in_pool` parameter. -/
def inPoolDefault : Bool := true

/-- `Query.__await__`: awaiting the query proxies to `run()` with its
default arguments. -/
def Query.awaited (q : Query) : Except Err RunResult := q.run inPoolDefault

/-- `Query.run_sync(timed=...)`: runs the coroutine to completion with
`in_pool=False`.  The `timed` flag only wraps execution in a Timer that
prints the duration, so it does not affect the result. -/
def Query.run_sync (q : Query) (timed : Bool) : Except Err RunResult :=
  q.run false

/-- An execution-only wrapper around a query whose SQL is finalized. -/
structure FrozenQuery where
  query : Query

/-- Modelled from the spec: `Query.freeze` copies the query via
`self.__class__(table=self.table, frozen_querystrings=self.querystrings)`;
the concrete subclass constructors that call reaches are not under src/,
and spec section 4.5 describes the copy as "a new Query of the same
concrete type carrying those querystrings as its frozen_querystrings",
so the copy is modelled as the same query with `frozen_querystrings` set
(class-level behaviour preserved).  A failure while resolving the
querystrings propagates. -/
def Query.freeze (q : Query) : Except Err FrozenQuery :=
  match q.querystrings with
  | .error e => .error e
  | .ok qss => .ok ⟨{ q with frozen_querystrings := some qss }⟩

/-- `FrozenQuery.run` delegates to the wrapped query's `run`. -/
def FrozenQuery.run (fq : FrozenQuery) (in_pool : Bool) :
    Except Err RunResult :=
  fq.query.run in_pool

/-- `FrozenQuery.run_sync` delegates to the wrapped query's `run_sync`. -/
def FrozenQuery.run_sync (fq : FrozenQuery) (timed : Bool) :
    Except Err RunResult :=
  fq.query.run_sync timed

/-- The non-dunder attribute names every `Query` object exposes without
evaluation: the two slots and the plain methods. -/
def queryPlainAttrs : List String :=
  ["table", "_frozen_querystrings", "_process_results", "_validate", "run",
   "run_sync", "response_handler", "freeze"]

/-- Python-3 `hasattr(self.query, name)`: probing an attribute evaluates
properties, and only `AttributeError` is interpreted as absence — any other
exception a property raises propagates out of `hasattr`.  `engine_type`,
the three producer properties and `querystrings` are properties; the
`output_delegate` attribute exists only when set. -/
def Query.hasattrE (q : Query) (name : String) : Except Err Bool :=
  if name = "engine_type" then
    match q.engine_type with
    | .ok _ => .ok true
    | .error e => .error e
  else if name = "postgres_querystrings" then
    match q.postgres_querystrings with
    | some _ => .ok true
    | none => .error .notImplementedError
  else if name = "sqlite_querystrings" then
    match q.sqlite_querystrings with
    | some _ => .ok true
    | none => .error .notImplementedError
  else if name = "default_querystrings" then
    match q.default_querystrings with
    | some _ => .ok true
    | none => .error .notImplementedError
  else if name = "querystrings" then
    match q.querystrings with
    | .ok _ => .ok true
    | .error e => .error e
  else if name = "output_delegate" then
    .ok q.output_delegate.isSome
  else if name ∈ queryPlainAttrs then
    .ok true
  else
    .ok false

/-- `FrozenQuery.__getattr__`: if the wrapped query has the attribute the
error says the query is frozen and names it; otherwise the attribute name
is unrecognised.  The `hasattr` probe's own non-AttributeError exceptions
propagate. -/
def FrozenQuery.getattrFallback (fq : FrozenQuery) (name : String) : Err :=
  match fq.query.hasattrE name with
  | .error e => e
  | .ok true =>
      .attributeError
        ("This query is frozen - " ++ name ++
         " is only available on unfrozen queries.")
  | .ok false => .attributeError "Unrecognised attribute name."

/-- The non-dunder attributes defined on `FrozenQuery` itself, found by
normal lookup so `__getattr__` is never consulted for them. -/
def frozenQueryOwnAttrs : List String := ["query", "run", "run_sync"]

/-- Attribute access on a `FrozenQuery`: names found on the wrapper resolve
normally; every other name reaches `__getattr__` and raises. -/
def FrozenQuery.accessAttr (fq : FrozenQuery) (name : String) :
    Except Err Unit :=
  if name ∈ frozenQueryOwnAttrs then .ok ()
  else .error (fq.getattrFallback name)

/-- Does a shaped result carry a JSON text serialization? -/
def Shaped.isJson : Shaped → Bool
  | .json _ => true
  | _ => false

/-! ### Concrete fixtures used by witnesses and counterexamples -/

def rowName : Row := [("name", Value.str "Pythonistas")]

def rowNamePop : Row := [("name", Value.str "Pythonistas"), ("popularity", Value.int 1000)]

def qsSelect : QueryString := ⟨"SELECT name FROM band"⟩

def qsDefaultSql : QueryString := ⟨"SELECT * FROM band"⟩

def qsA : QueryString := ⟨"UPDATE band SET popularity = 1"⟩

def qsB : QueryString := ⟨"UPDATE band SET popularity = 2"⟩

def engineOneCol : Engine := ⟨"postgres", fun _ _ => [rowName]⟩

def engineTwoCol : Engine := ⟨"postgres", fun _ _ => [rowNamePop]⟩

def engineEmptyRows : Engine := ⟨"postgres", fun _ _ => []⟩

def engineMysql : Engine := ⟨"mysql", fun _ _ => [rowName]⟩

def enginePoolSensitive : Engine :=
  ⟨"postgres", fun _ b => cond b [rowNamePop] [rowName]⟩

def enginePoolSensitiveAlt : Engine :=
  ⟨"postgres", fun _ b => cond b [] [rowName]⟩

def tableNoDb : Table := ⟨"band", none⟩

def tableWith (e : Engine) : Table := ⟨"band", some e⟩

/-- A plain query on the given table: nothing overridden, no output
delegate, identity response handler, passing validation. -/
def baseQuery (t : Table) : Query :=
  { table := t, frozen_querystrings := none, postgres_querystrings := none,
    sqlite_querystrings := none, default_querystrings := none,
    response_handler := Resp.list, output_delegate := none, validate := none }

def q1Fallback : Query :=
  { baseQuery (tableWith engineOneCol) with
      default_querystrings := some [qsDefaultSql] }

def q1Frozen : Query :=
  { baseQuery (tableWith engineMysql) with frozen_querystrings := some [qsA] }

def q1Mysql : Query :=
  { baseQuery (tableWith engineMysql) with
      default_querystrings := some [qsDefaultSql] }

def q2Simple : Query :=
  { baseQuery (tableWith engineOneCol) with
      postgres_querystrings := some [qsSelect] }

def frozenNoEngine : FrozenQuery := ⟨baseQuery tableNoDb⟩

def q4Multi : Query :=
  { baseQuery (tableWith engineOneCol) with
      frozen_querystrings := some [qsA, qsB] }

def q6TwoCols : Query :=
  { baseQuery (tableWith engineTwoCol) with
      output_delegate := some ⟨false, true, false⟩ }

def q7Empty : Query :=
  { baseQuery (tableWith engineEmptyRows) with
      frozen_querystrings := some [qsSelect],
      output_delegate := some ⟨false, true, true⟩ }

def q8Objects : Query :=
  { baseQuery (tableWith engineOneCol) with
      output_delegate := some ⟨true, false, false⟩ }

def q9ObjJson : Query :=
  { baseQuery (tableWith engineOneCol) with
      output_delegate := some ⟨true, false, true⟩ }

def q9ListJson : Query :=
  { baseQuery (tableWith engineOneCol) with
      output_delegate := some ⟨false, false, true⟩ }

/-! ### Helper lemmas -/

theorem dictInsert_of_not_mem (r : Row) (k : String) (v : Value)
    (h : ¬ k ∈ r.keys) : dictInsert r k v = r ++ [(k, v)] := by
  induction r with
  | nil => rfl
  | cons kv rest ih =>
      obtain ⟨k', v'⟩ := kv
      simp only [Row.keys, List.map_cons, List.mem_cons, not_or] at h
      simp only [dictInsert, if_neg (Ne.symm h.1), List.cons_append]
      exact congrArg _ (ih h.2)

theorem foldl_dictInsert_eq_append (ps : List (String × Value)) :
    ∀ (acc : Row), (∀ x ∈ ps.map Prod.fst, ¬ x ∈ acc.keys) →
      (ps.map Prod.fst).Nodup →
      ps.foldl (fun r kv => dictInsert r kv.1 kv.2) acc = acc ++ ps := by
  induction ps with
  | nil => intro acc _ _; simp
  | cons kv rest ih =>
      intro acc hdisj hnd
      obtain ⟨k, v⟩ := kv
      simp only [List.map_cons, List.nodup_cons] at hnd
      simp only [List.map_cons, List.mem_cons] at hdisj
      have hk : ¬ k ∈ acc.keys := hdisj k (Or.inl rfl)
      simp only [List.foldl_cons, dictInsert_of_not_mem acc k v hk]
      rw [ih (acc ++ [(k, v)])]
      · simp
      · intro x hx
        simp only [Row.keys, List.map_append, List.mem_append]
        rintro (hxa | hxk)
        · exact hdisj x (Or.inr hx) hxa
        · simp only [List.map_cons, List.map_nil, List.mem_singleton] at hxk
          exact hnd.1 (hxk ▸ hx)
      · exact hnd.2

theorem dictOf_eq_self (ps : List (String × Value))
    (hnd : (ps.map Prod.fst).Nodup) : dictOf ps = ps := by
  have h := foldl_dictInsert_eq_append ps [] (by simp [Row.keys]) hnd
  simpa [dictOf] using h

theorem runEach_eq_mapM (q : Query) (engine : Engine) (b : Bool)
    (qss : List QueryString) :
    q.runEach engine b qss
      = qss.mapM (fun k => q.process_results (engine.run_querystring k b)) := by
  induction qss with
  | nil => rw [List.mapM_nil]; rfl
  | cons k rest ih =>
      rw [List.mapM_cons, Query.runEach, ih]
      rfl

theorem runEach_congr (q q' : Query) (e e' : Engine) (b b' : Bool)
    (hpr : ∀ res, q.process_results res = q'.process_results res)
    (hrun : ∀ k, e.run_querystring k b = e'.run_querystring k b') :
    ∀ l, q.runEach e b l = q'.runEach e' b' l := by
  intro l
  induction l with
  | nil => rfl
  | cons k rest ih => simp only [Query.runEach, hrun, hpr, ih]

/-! ### Claim theorems -/

/-- C1: resolving the effective querystrings returns `frozen_querystrings`
verbatim when set; otherwise, for a "postgres" engine tag the
postgres-specific producer is attempted with fallback to the default
producer when it signals not-implemented (the default's own
not-implemented signal propagating), for "sqlite" the same pattern applies
with the sqlite-specific producer, and any other tag fails with an
unsupported-engine error whose message names the tag. -/
theorem querystrings_resolution (q : Query) :
    (∀ qs, q.frozen_querystrings = some qs → q.querystrings = Except.ok qs)
    ∧ (∀ e, q.frozen_querystrings = none → q.table.db = some e →
        ((e.engine_type = "postgres" →
            ((∀ ps, q.postgres_querystrings = some ps →
                q.querystrings = Except.ok ps)
            ∧ (q.postgres_querystrings = none →
                ∀ ds, q.default_querystrings = some ds →
                  q.querystrings = Except.ok ds)
            ∧ (q.postgres_querystrings = none →
                q.default_querystrings = none →
                  q.querystrings = Except.error Err.notImplementedError)))
        ∧ (e.engine_type = "sqlite" →
            ((∀ ss, q.sqlite_querystrings = some ss →
                q.querystrings = Except.ok ss)
            ∧ (q.sqlite_querystrings = none →
                ∀ ds, q.default_querystrings = some ds →
                  q.querystrings = Except.ok ds)
            ∧ (q.sqlite_querystrings = none →
                q.default_querystrings = none →
                  q.querystrings = Except.error Err.notImplementedError)))
        ∧ (¬ e.engine_type = "postgres" → ¬ e.engine_type = "sqlite" →
            q.querystrings = Except.error (Err.exception
              ("No querystring found for the " ++ e.engine_type ++
               " engine."))))) := by
  constructor
  · intro qs hf
    simp [Query.querystrings, hf]
  · intro e hf hdb
    refine ⟨fun htag => ⟨?_, ?_, ?_⟩, fun htag => ⟨?_, ?_, ?_⟩, ?_⟩
    · intro ps hps
      simp [Query.querystrings, Query.engine_type, attemptWithFallback,
            hf, hdb, htag, hps]
    · intro hspec ds hds
      simp [Query.querystrings, Query.engine_type, attemptWithFallback,
            hf, hdb, htag, hspec, hds]
    · intro hspec hdef
      simp [Query.querystrings, Query.engine_type, attemptWithFallback,
            hf, hdb, htag, hspec, hdef]
    · intro ss hss
      simp [Query.querystrings, Query.engine_type, attemptWithFallback,
            hf, hdb, htag, hss]
    · intro hspec ds hds
      simp [Query.querystrings, Query.engine_type, attemptWithFallback,
            hf, hdb, htag, hspec, hds]
    · intro hspec hdef
      simp [Query.querystrings, Query.engine_type, attemptWithFallback,
            hf, hdb, htag, hspec, hdef]
    · intro hpg hsq
      simp [Query.querystrings, Query.engine_type, attemptWithFallback,
            hf, hdb, hpg, hsq]

/-- C1 witness: at concrete queries, a frozen sequence is returned
verbatim, a postgres query without a postgres producer falls back to the
default producer, and a "mysql" engine fails naming the tag. -/
theorem querystrings_resolution_witness :
    q1Frozen.querystrings = Except.ok [qsA]
    ∧ q1Fallback.querystrings = Except.ok [qsDefaultSql]
    ∧ q1Mysql.querystrings = Except.error (Err.exception
        "No querystring found for the mysql engine.") := by
  refine ⟨?_, ?_, ?_⟩
  · exact (querystrings_resolution q1Frozen).1 [qsA] rfl
  · exact (((querystrings_resolution q1Fallback).2 engineOneCol rfl
      rfl).1 rfl).2.1 rfl [qsDefaultSql] rfl
  · exact ((querystrings_resolution q1Mysql).2 engineMysql rfl
      rfl).2.2 (by decide) (by decide)

/-- C5: running a query whose table has no bound engine fails fast, once
validation passes, with a `ValueError` naming the table — independent of
the producers, output flags and engine behaviour, i.e. before any SQL is
built or sent. -/
theorem run_no_engine_fails (q : Query) (b : Bool)
    (hv : q.validate = none) (hdb : q.table.db = none) :
    q.run b = Except.error (Err.valueError
      ("Table " ++ q.table.tablename ++ " has no db defined in _meta")) := by
  simp [Query.run, hv, hdb]

/-- C5 witness: the concrete engine-less query fails with the error naming
the table `band`. -/
theorem run_no_engine_fails_witness :
    (baseQuery tableNoDb).run true = Except.error (Err.valueError
      "Table band has no db defined in _meta") :=
  run_no_engine_fails (baseQuery tableNoDb) true rfl rfl

/-- C3 counterexample: on a `FrozenQuery` wrapping a query whose table has
no bound engine, accessing the non-execution attribute `engine_type` fails
with a `ValueError` (the probe `hasattr(self.query, name)` evaluates the
property and only catches `AttributeError`), not an attribute-not-found
style error — refuting the claim that every such access fails with an
attribute-not-found style error. -/
theorem frozen_getattr_counterexample :
    frozenNoEngine.accessAttr "engine_type"
      = Except.error (Err.valueError "Engine isn't defined.")
    ∧ Err.isAttributeError (Err.valueError "Engine isn't defined.") = false :=
  ⟨rfl, rfl⟩

/-- C3 amended: for every attribute name outside the wrapper's own surface
(`query`, `run`, `run_sync`), access fails; when the existence probe on the
wrapped query itself raises a non-AttributeError (a property such as
`engine_type` or an unimplemented querystring producer) that error
propagates unchanged; otherwise the failure is an attribute-not-found
error whose message distinguishes "exists but frozen" (naming the
attribute) from "never existed". -/
theorem frozen_getattr_amended (fq : FrozenQuery) (name : String)
    (hname : ¬ name ∈ frozenQueryOwnAttrs) :
    (∀ e, fq.query.hasattrE name = Except.error e →
        fq.accessAttr name = Except.error e)
    ∧ (fq.query.hasattrE name = Except.ok true →
        fq.accessAttr name = Except.error (Err.attributeError
          ("This query is frozen - " ++ name ++
           " is only available on unfrozen queries.")))
    ∧ (fq.query.hasattrE name = Except.ok false →
        fq.accessAttr name = Except.error (Err.attributeError
          "Unrecognised attribute name.")) := by
  refine ⟨?_, ?_, ?_⟩ <;>
    first
    | (intro e he
       simp [FrozenQuery.accessAttr, FrozenQuery.getattrFallback, hname, he])
    | (intro he
       simp [FrozenQuery.accessAttr, FrozenQuery.getattrFallback, hname, he])

/-- C3 amended witness: on a concrete frozen query, the present attribute
`freeze` raises the frozen-naming error and the absent attribute `limit`
raises the unrecognised-name error. -/
theorem frozen_getattr_amended_witness :
    (FrozenQuery.mk q2Simple).accessAttr "freeze"
      = Except.error (Err.attributeError
          "This query is frozen - freeze is only available on unfrozen queries.")
    ∧ (FrozenQuery.mk q2Simple).accessAttr "limit"
      = Except.error (Err.attributeError "Unrecognised attribute name.") :=
  ⟨(frozen_getattr_amended (FrozenQuery.mk q2Simple) "freeze"
      (by decide)).2.1 rfl,
   (frozen_getattr_amended (FrozenQuery.mk q2Simple) "limit"
      (by decide)).2.2 rfl⟩

/-- C2: once the effective querystrings resolve, `freeze` stores them in a
copy of the query as its `frozen_querystrings` wrapped in a `FrozenQuery`;
the frozen copy resolves its querystrings to exactly the stored sequence;
and running the frozen result (which delegates to the copy) yields output
identical to running the unfrozen original, for either pooling flag. -/
theorem freeze_roundtrip (q : Query) (qss : List QueryString)
    (h : q.querystrings = Except.ok qss) :
    q.freeze = Except.ok ⟨{ q with frozen_querystrings := some qss }⟩
    ∧ ({ q with frozen_querystrings := some qss } : Query).querystrings
        = Except.ok qss
    ∧ ∀ b, FrozenQuery.run ⟨{ q with frozen_querystrings := some qss }⟩ b
        = q.run b := by
  refine ⟨by simp [Query.freeze, h], rfl, ?_⟩
  intro b
  obtain ⟨t, f, p, s, d, rh, od, v⟩ := q
  have hpr : ∀ res, (Query.mk t (some qss) p s d rh od v).process_results res
      = (Query.mk t f p s d rh od v).process_results res := fun _ => rfl
  simp only [FrozenQuery.run]
  unfold Query.run
  rw [show (Query.mk t (some qss) p s d rh od v).querystrings
        = Except.ok qss from rfl, h]
  cases v with
  | some err => rfl
  | none =>
      cases t.db with
      | none => rfl
      | some engine =>
          cases qss with
          | nil =>
              simp only [runEach_congr _ _ engine engine b b hpr
                (fun _ => rfl) []]
          | cons k rest =>
              cases rest with
              | nil => simp only [hpr]
              | cons k2 rest2 =>
                  simp only [runEach_congr _ _ engine engine b b hpr
                    (fun _ => rfl) (k :: k2 :: rest2)]

/-- C2 witness: freezing a concrete postgres query and running the frozen
result gives the same output as running the original. -/
theorem freeze_roundtrip_witness :
    q2Simple.freeze = Except.ok
      ⟨{ q2Simple with frozen_querystrings := some [qsSelect] }⟩
    ∧ FrozenQuery.run
        ⟨{ q2Simple with frozen_querystrings := some [qsSelect] }⟩ true
      = q2Simple.run true :=
  ⟨(freeze_roundtrip q2Simple [qsSelect] rfl).1,
   (freeze_roundtrip q2Simple [qsSelect] rfl).2.2 true⟩

/-- C4: once validation passes and an engine is bound, a query resolving
to exactly one querystring executes it (with the given pooling flag) and
returns the single post-processed output directly, while a query resolving
to any other number of querystrings executes them strictly in sequence —
`mapM`, each awaited to completion and post-processed independently before
the next begins, with no transaction wrapping — and returns the ordered
sequence of per-statement outputs. -/
theorem run_execution (q : Query) (b : Bool) (engine : Engine)
    (hv : q.validate = none) (hdb : q.table.db = some engine) :
    (∀ k, q.querystrings = Except.ok [k] →
        q.run b = (q.process_results (engine.run_querystring k b)).map
          RunResult.single)
    ∧ (∀ qss, q.querystrings = Except.ok qss → qss.length ≠ 1 →
        q.run b = (qss.mapM (fun j =>
            q.process_results (engine.run_querystring j b))).map
          RunResult.multi) := by
  constructor
  · intro k hk
    simp [Query.run, hv, hdb, hk]
  · intro qss hqs hlen
    simp only [Query.run, hv, hdb, hqs]
    cases qss with
    | nil => simp [runEach_eq_mapM]
    | cons k rest =>
        cases rest with
        | nil => simp at hlen
        | cons k2 rest2 => simp [runEach_eq_mapM]

/-- C4 witness: a concrete frozen two-statement query returns the ordered
pair of post-processed outputs. -/
theorem run_execution_witness :
    q4Multi.run true = Except.ok (RunResult.multi
      [Shaped.list [rowName], Shaped.list [rowName]]) := by
  have h := (run_execution q4Multi true engineOneCol rfl rfl).2
    [qsA, qsB] rfl (by decide)
  rw [h]
  rfl

/-- C7: a run whose engine returns zero rows, with "as list" set and
"as objects" unset, returns the empty sequence without error — the
single-column check is skipped entirely on empty input (whatever the
"as json" flag holds, since the early return bypasses it). -/
theorem run_empty_as_list (q : Query) (b : Bool) (e : Engine)
    (k : QueryString) (o : Output)
    (hv : q.validate = none) (hdb : q.table.db = some e)
    (hqs : q.querystrings = Except.ok [k])
    (hempty : e.run_querystring k b = [])
    (hrh : q.response_handler = Resp.list)
    (ho : q.output_delegate = some o)
    (hobj : o.as_objects = false) (hlist : o.as_list = true) :
    q.run b = Except.ok (RunResult.single (Shaped.list [])) := by
  simp [Query.run, hv, hdb, hqs, hempty, Query.process_results, rebuildRows,
        hrh, ho, hobj, hlist, Except.map]

/-- C7 witness: the concrete empty-result query with "as list" (and
"as json") set returns the empty sequence. -/
theorem run_empty_as_list_witness :
    q7Empty.run true = Except.ok (RunResult.single (Shaped.list [])) :=
  run_empty_as_list q7Empty true engineEmptyRows qsSelect
    ⟨false, true, true⟩ rfl rfl rfl rfl rfl rfl rfl rfl

/-- C6: shaping a non-empty result set with "as list" set (and
"as objects" unset, identity handler) fails with the count-related
shape-mismatch `ValueError` whenever the rows carry two or more columns
(stated via the first row, from which the code reads the uniform column
keys; its rewritten keys assumed distinct as SQL column names are) —
regardless of how many further rows matched; and querystring resolution,
i.e. query building, can never produce that error, so it is detected only
at result-shaping time. -/
theorem as_list_shape_mismatch (q : Query) (o : Output) (r : Row)
    (rest : List Row)
    (hrh : q.response_handler = Resp.list)
    (ho : q.output_delegate = some o)
    (hobj : o.as_objects = false) (hlist : o.as_list = true)
    (hnd : (r.keys.map replaceDollar).Nodup)
    (h2 : 2 ≤ r.keys.length) :
    q.process_results (r :: rest)
      = Except.error (Err.valueError "Each row returned more than one value")
    ∧ ∀ (q2 : Query), q2.querystrings
        ≠ Except.error (Err.valueError
            "Each row returned more than one value") := by
  constructor
  · have hkeyslen : (r.keys.map replaceDollar).length = r.keys.length :=
      List.length_map _ _
    have hvals : r.values.length = r.keys.length := by
      simp [Row.keys, Row.values]
    have hle : (r.keys.map replaceDollar).length ≤ r.values.length := by
      rw [hkeyslen, hvals]
    have hfst : ((r.keys.map replaceDollar).zip r.values).map Prod.fst
        = r.keys.map replaceDollar := List.map_fst_zip _ _ hle
    have hdict : dictOf ((r.keys.map replaceDollar).zip r.values)
        = (r.keys.map replaceDollar).zip r.values :=
      dictOf_eq_self _ (by rw [hfst]; exact hnd)
    have hlen : (dictOf ((r.keys.map replaceDollar).zip r.values)).keys.length
        = r.keys.length := by
      rw [hdict, Row.keys, hfst, hkeyslen]
    have hne : (dictOf ((r.keys.map replaceDollar).zip r.values)).keys.length
        ≠ 1 := by omega
    simp [Query.process_results, rebuildRows, hrh, ho, hobj, hlist, hne]
  · intro q2 hq
    cases hfr : q2.frozen_querystrings with
    | some qs => simp [Query.querystrings, hfr] at hq
    | none =>
        cases hdb : q2.table.db with
        | none =>
            simp [Query.querystrings, Query.engine_type, hfr, hdb] at hq
        | some e =>
            by_cases hpg : e.engine_type = "postgres"
            · simp only [Query.querystrings, Query.engine_type,
                attemptWithFallback, hfr, hdb, hpg, if_true] at hq
              cases hps : q2.postgres_querystrings with
              | some ps => simp [hps] at hq
              | none =>
                  cases hds : q2.default_querystrings with
                  | some ds => simp [hps, hds] at hq
                  | none => simp [hps, hds] at hq
            · by_cases hsq : e.engine_type = "sqlite"
              · simp only [Query.querystrings, Query.engine_type,
                  attemptWithFallback, hfr, hdb, hpg, hsq, if_false,
                  if_true] at hq
                cases hss : q2.sqlite_querystrings with
                | some ss => simp [hss] at hq
                | none =>
                    cases hds : q2.default_querystrings with
                    | some ds => simp [hss, hds] at hq
                    | none => simp [hss, hds] at hq
              · simp [Query.querystrings, Query.engine_type, hfr, hdb,
                  hpg, hsq] at hq

/-- C6 witness: the concrete two-column result row makes the concrete
"as list" query fail with the shape-mismatch error, and the concrete
queries of this file never hit it while resolving querystrings. -/
theorem as_list_shape_mismatch_witness :
    q6TwoCols.process_results [rowNamePop]
      = Except.error (Err.valueError "Each row returned more than one value")
    ∧ q6TwoCols.querystrings
        ≠ Except.error (Err.valueError
            "Each row returned more than one value") :=
  ⟨(as_list_shape_mismatch q6TwoCols ⟨false, true, false⟩ rowNamePop []
      rfl rfl rfl rfl (by decide) (by decide)).1,
   (as_list_shape_mismatch q6TwoCols ⟨false, true, false⟩ rowNamePop []
      rfl rfl rfl rfl (by decide) (by decide)).2 q6TwoCols⟩

/-- C8: with "as objects" set, a list handler result is mapped row by row
into constructed table-model instances, a `None` handler result passes
through unchanged, and a singular row mapping is turned into exactly one
constructed instance. -/
theorem as_objects_shaping (q : Query) (results : List Row) (o : Output)
    (ho : q.output_delegate = some o) (hobj : o.as_objects = true) :
    (∀ rs, q.response_handler (rebuildRows results) = Resp.list rs →
        q.process_results results
          = Except.ok (Shaped.objects (rs.map q.table.instantiate)))
    ∧ (q.response_handler (rebuildRows results) = Resp.noneV →
        q.process_results results = Except.ok Shaped.noneV)
    ∧ (∀ r, q.response_handler (rebuildRows results) = Resp.dict r →
        q.process_results results
          = Except.ok (Shaped.obj (q.table.instantiate r))) := by
  refine ⟨?_, ?_, ?_⟩ <;>
    first
    | (intro rs hraw
       simp [Query.process_results, ho, hobj, hraw])
    | (intro hraw
       simp [Query.process_results, ho, hobj, hraw])

/-- C8 witness: at a concrete query with "as objects" set and the identity
handler, one raw row becomes one constructed instance. -/
theorem as_objects_shaping_witness :
    q8Objects.process_results [rowName]
      = Except.ok (Shaped.objects
          [Table.instantiate (tableWith engineOneCol) rowName]) :=
  (as_objects_shaping q8Objects [rowName] ⟨true, false, false⟩
    rfl rfl).1 [rowName] rfl

/-- C9 counterexample: with both "as objects" and "as json" set, shaping a
non-empty result yields constructed instances and never a JSON text — the
`as_json` step lives in the `elif` branch that `as_objects` preempts —
refuting the claim that "as json" applies orthogonally to the other
flags. -/
theorem as_json_counterexample :
    q9ObjJson.output_delegate = some ⟨true, false, true⟩
    ∧ q9ObjJson.process_results [rowName]
        = Except.ok (Shaped.objects
            [Table.instantiate (tableWith engineOneCol) rowName])
    ∧ Shaped.isJson (Shaped.objects
        [Table.instantiate (tableWith engineOneCol) rowName]) = false :=
  ⟨rfl, rfl, rfl⟩

/-- C9 amended: "as json" serializes the (possibly already-flattened)
result to JSON text only when "as objects" is unset and the handler result
is a list; with "as list" also set, a non-empty single-column list is
flattened and then serialized, but the empty list returns `[]` early,
skipping serialization; and with "as objects" set, the result is the
constructed instances, never JSON text. -/
theorem as_json_amended (q : Query) (o : Output) (results : List Row)
    (ho : q.output_delegate = some o) (hjson : o.as_json = true) :
    (o.as_objects = false → o.as_list = false →
      ∀ rs, q.response_handler (rebuildRows results) = Resp.list rs →
        q.process_results results
          = Except.ok (Shaped.json (dump_json (Shaped.list rs))))
    ∧ (o.as_objects = false → o.as_list = true →
      ∀ r rest,
        q.response_handler (rebuildRows results) = Resp.list (r :: rest) →
        r.keys.length = 1 →
        q.process_results results
          = Except.ok (Shaped.json (dump_json
              (Shaped.flat (((r :: rest).map Row.values).flatten)))))
    ∧ (o.as_objects = true →
      ∀ rs, q.response_handler (rebuildRows results) = Resp.list rs →
        q.process_results results
          = Except.ok (Shaped.objects (rs.map q.table.instantiate)))
    ∧ (o.as_objects = false → o.as_list = true →
      q.response_handler (rebuildRows results) = Resp.list [] →
        q.process_results results = Except.ok (Shaped.list [])) := by
  refine ⟨?_, ?_, ?_, ?_⟩
  · intro hobj hlist rs hraw
    simp [Query.process_results, ho, hobj, hlist, hjson, hraw]
  · intro hobj hlist r rest hraw h1
    simp [Query.process_results, ho, hobj, hlist, hjson, hraw, h1]
  · intro hobj rs hraw
    simp [Query.process_results, ho, hobj, hraw]
  · intro hobj hlist hraw
    simp [Query.process_results, ho, hobj, hlist, hraw]

/-- C9 amended witness: with "as objects" unset, "as json" set and the
identity handler, one concrete raw row is serialized to JSON text. -/
theorem as_json_amended_witness :
    q9ListJson.process_results [rowName]
      = Except.ok (Shaped.json (dump_json
          (Shaped.list (rebuildRows [rowName])))) :=
  (as_json_amended q9ListJson ⟨false, false, true⟩ [rowName] rfl rfl).1
    rfl rfl (rebuildRows [rowName]) rfl

/-- C10: `run_sync` always invokes `run` with `in_pool=False` whatever the
`timed` flag is, while awaiting the query uses `run`'s own default
`in_pool=True`; consequently `run_sync`'s outcome depends only on the
engine's non-pooled behaviour — two engines with the same tag agreeing on
every non-pooled `run_querystring` call give identical `run_sync`
results. -/
theorem run_sync_unpooled (tname : String)
    (f p s d : Option (List QueryString)) (rh : List Row → Resp)
    (od : Option Output) (v : Option Err) (e e2 : Engine) (timed : Bool)
    (htag : e2.engine_type = e.engine_type)
    (hagree : ∀ k, e2.run_querystring k false = e.run_querystring k false) :
    (∀ (q : Query), q.run_sync timed = q.run false)
    ∧ (∀ (q : Query), q.awaited = q.run inPoolDefault)
    ∧ inPoolDefault = true
    ∧ (Query.mk (Table.mk tname (some e2)) f p s d rh od v).run_sync timed
        = (Query.mk (Table.mk tname (some e)) f p s d rh od v).run_sync
            timed := by
  refine ⟨fun _ => rfl, fun _ => rfl, rfl, ?_⟩
  show (Query.mk (Table.mk tname (some e2)) f p s d rh od v).run false
      = (Query.mk (Table.mk tname (some e)) f p s d rh od v).run false
  have hpr : ∀ res,
      (Query.mk (Table.mk tname (some e2)) f p s d rh od v).process_results
        res
      = (Query.mk (Table.mk tname (some e)) f p s d rh od
          v).process_results res := fun _ => rfl
  have hqs : (Query.mk (Table.mk tname (some e2)) f p s d rh od
        v).querystrings
      = (Query.mk (Table.mk tname (some e)) f p s d rh od v).querystrings := by
    cases f with
    | some qs => rfl
    | none => simp [Query.querystrings, Query.engine_type, htag]
  cases v with
  | some err => rfl
  | none =>
      simp only [Query.run, hqs]
      generalize (Query.mk (Table.mk tname (some e)) f p s d rh od
        none).querystrings = res
      cases res with
      | error err => rfl
      | ok qss =>
          cases qss with
          | nil =>
              simp only [runEach_congr _ _ e2 e false false hpr hagree []]
          | cons k rest =>
              cases rest with
              | nil => simp only [hagree, hpr]
              | cons k2 rest2 =>
                  simp only [runEach_congr _ _ e2 e false false hpr hagree
                    (k :: k2 :: rest2)]

/-- C10 witness: at a concrete query over two engines that differ on
pooled calls but agree on direct ones, `run_sync` returns the same result,
equal to `run` with `in_pool=False`. -/
theorem run_sync_unpooled_witness :
    (baseQuery (tableWith enginePoolSensitiveAlt)).run_sync true
      = (baseQuery (tableWith enginePoolSensitive)).run_sync true
    ∧ (baseQuery (tableWith enginePoolSensitive)).run_sync true
      = (baseQuery (tableWith enginePoolSensitive)).run false :=
  ⟨(run_sync_unpooled "band" none none none none Resp.list none none
      enginePoolSensitive enginePoolSensitiveAlt true rfl
      (fun _ => rfl)).2.2.2,
   (run_sync_unpooled "band" none none none none Resp.list none none
      enginePoolSensitive enginePoolSensitiveAlt true rfl
      (fun _ => rfl)).1 (baseQuery (tableWith enginePoolSensitive))⟩

end Piccolo
